import Mathlib

/-!
Shallow embedding of the PRAT invoice-reconciliation core: the PO-matching
cascade (`app/core/po_matcher.py`), the business-rules engine
(`app/core/business_rules.py`), the recommendation engine
(`app/core/recommendation_engine.py`), the pydantic construction validators of
the data models (`app/models/invoice.py`, `app/models/purchase_order.py`), and
the repository-backed PO lookup service (`app/services/po_service.py`).

Python `Decimal` amounts are embedded as `ℚ` (exact decimal arithmetic is a
subset of rational arithmetic for the operations used), `datetime` values as
integer timestamps, and violation severities as the literal strings the source
compares against ("LOW"/"MEDIUM"/"HIGH"/"CRITICAL").  Free-text description
fields of violations and the `line_item_matches` report are metadata not
consulted by any decision and are omitted.
-/

namespace PRAT

/-- Embeds `ActionType` of `app/models/recommendation.py`. -/
inductive ActionType
  | APPROVE
  | REJECT
  | HOLD
  | MANUAL_REVIEW
  deriving DecidableEq, Repr

/-- Embeds `ViolationType` of `app/models/recommendation.py`. -/
inductive ViolationType
  | AMOUNT_EXCEEDS_THRESHOLD
  | DUPLICATE_INVOICE
  | INVALID_TAX_CALCULATION
  | VENDOR_NOT_AUTHORIZED
  | PO_NOT_FOUND
  | QUANTITY_MISMATCH
  | PRICE_MISMATCH
  | DELIVERY_DATE_ISSUE
  | CONTRACT_VIOLATION
  | OVERAGE_EXCEEDS_LIMIT
  deriving DecidableEq, Repr

/-- Embeds `BusinessRuleViolation`: only the fields the decision logic reads
(`violation_type`, `severity`); description/field metadata are omitted. -/
structure BusinessRuleViolation where
  violation_type : ViolationType
  severity : String
  deriving DecidableEq, Repr

/-- Embeds `InvoiceLineItem` of `app/models/invoice.py`. -/
structure InvoiceLineItem where
  description : String
  quantity : Int
  unit_price : ℚ
  total_price : ℚ
  sku : Option String
  deriving DecidableEq, Repr

/-- Embeds `Invoice` of `app/models/invoice.py` (fields consulted by the
core decision logic and the construction validators). -/
structure Invoice where
  invoice_number : String
  vendor_name : String
  vendor_id : Option String
  invoice_date : Int
  due_date : Int
  total_amount : ℚ
  tax_amount : ℚ
  subtotal_amount : ℚ
  line_items : List InvoiceLineItem
  po_reference : Option String
  contract_reference : Option String
  payment_terms : Option String
  deriving DecidableEq, Repr

/-- Embeds `POLineItem` of `app/models/purchase_order.py`. -/
structure POLineItem where
  description : String
  quantity : Int
  unit_price : ℚ
  total_price : ℚ
  sku : Option String
  deriving DecidableEq, Repr

/-- Embeds `PurchaseOrder` of `app/models/purchase_order.py`. -/
structure PurchaseOrder where
  po_number : String
  vendor_name : String
  vendor_id : Option String
  po_date : Int
  total_authorized : ℚ
  line_items : List POLineItem
  deriving DecidableEq, Repr

/-- Embeds `ValidationResult` of `app/models/recommendation.py` (fields the
claims consult; percentage/timing fields omitted). -/
structure ValidationResult where
  is_valid : Bool
  confidence_score : ℚ
  po_found : Bool
  po_number : Option String
  total_line_items : Nat
  matched_line_items : Nat
  amount_difference : ℚ
  overage_amount : ℚ
  violations : List BusinessRuleViolation
  critical_violations : Nat
  high_violations : Nat
  deriving DecidableEq, Repr

/-- Embeds `RecommendationEngine._determine_base_action`
(`app/core/recommendation_engine.py` lines 113-149).  The configured
`settings.auto_approve_threshold` is passed explicitly. -/
def determine_base_action (auto_approve_threshold : ℚ) (invoice : Invoice)
    (validation_result : ValidationResult)
    (violations : List BusinessRuleViolation) : ActionType :=
  if violations.filter (fun v => v.severity == "CRITICAL") ≠ [] then
    ActionType.REJECT
  else if violations.filter (fun v => v.severity == "HIGH") ≠ [] then
    ActionType.MANUAL_REVIEW
  else if validation_result.po_found && validation_result.is_valid then
    (if invoice.total_amount ≤ auto_approve_threshold then
      ActionType.APPROVE
    else
      ActionType.MANUAL_REVIEW)
  else if !validation_result.po_found then
    ActionType.HOLD
  else if violations.filter (fun v => v.severity == "MEDIUM") ≠ [] then
    ActionType.MANUAL_REVIEW
  else
    ActionType.MANUAL_REVIEW

/-- Embeds the action selection of `RecommendationEngine.generate_recommendation`:
the two violation lists are concatenated (`all_violations`) and handed to
`_determine_base_action`. -/
def generate_recommendation_action (auto_approve_threshold : ℚ) (invoice : Invoice)
    (validation_result : ValidationResult)
    (business_rule_violations : List BusinessRuleViolation) : ActionType :=
  let all_violations := validation_result.violations ++ business_rule_violations
  determine_base_action auto_approve_threshold invoice validation_result all_violations

/-- The ordered decision table exactly as the spec words it (spec section 4.4,
rules 1-6), written independently of the source for the refinement claim C1. -/
def spec_decision_table (auto_approve_threshold : ℚ) (invoice : Invoice)
    (validation_result : ValidationResult)
    (merged : List BusinessRuleViolation) : ActionType :=
  if ∃ v ∈ merged, v.severity = "CRITICAL" then
    ActionType.REJECT
  else if ∃ v ∈ merged, v.severity = "HIGH" then
    ActionType.MANUAL_REVIEW
  else if validation_result.po_found = true ∧ validation_result.is_valid = true then
    (if invoice.total_amount ≤ auto_approve_threshold then
      ActionType.APPROVE
    else
      ActionType.MANUAL_REVIEW)
  else if validation_result.po_found = false then
    ActionType.HOLD
  else if ∃ v ∈ merged, v.severity = "MEDIUM" then
    ActionType.MANUAL_REVIEW
  else
    ActionType.MANUAL_REVIEW

/-- Embeds `RecommendationEngine._calculate_confidence_score`
(`app/core/recommendation_engine.py` lines 253-278). -/
def calculate_confidence_score (validation_result : ValidationResult)
    (violations : List BusinessRuleViolation) : ℚ :=
  let confidence := validation_result.confidence_score
  let violation_penalty := min ((violations.length : ℚ) * 0.1) 0.4
  let critical_penalty :=
    ((violations.filter (fun v => v.severity == "CRITICAL")).length : ℚ) * 0.2
  let high_penalty :=
    ((violations.filter (fun v => v.severity == "HIGH")).length : ℚ) * 0.15
  let medium_penalty :=
    ((violations.filter (fun v => v.severity == "MEDIUM")).length : ℚ) * 0.1
  let total_penalty := violation_penalty + critical_penalty + high_penalty + medium_penalty
  max (confidence - total_penalty) 0.1

/-- The recommendation confidence formula exactly as the spec words it
(spec section 4.4), for the refinement claim C7. -/
def spec_recommendation_confidence (validation_confidence : ℚ)
    (violation_count critical_count high_count medium_count : ℕ) : ℚ :=
  max (validation_confidence - min (0.1 * (violation_count : ℚ)) 0.4 -
      (0.2 * (critical_count : ℚ) + 0.15 * (high_count : ℚ) + 0.1 * (medium_count : ℚ)))
    0.1

/-- Embeds `POMatcher._calculate_validation_confidence`
(`app/core/po_matcher.py` lines 377-399). -/
def calculate_validation_confidence (matched_items total_items : ℕ)
    (violations : List BusinessRuleViolation) : ℚ :=
  if total_items = 0 then 0
  else
    let item_confidence : ℚ := (matched_items : ℚ) / (total_items : ℚ)
    let violation_penalty := min ((violations.length : ℚ) * 0.1) 0.5
    let critical_penalty :=
      ((violations.filter (fun v => v.severity == "CRITICAL")).length : ℚ) * 0.2
    max (item_confidence - violation_penalty - critical_penalty) 0

/-- The validation confidence formula exactly as the spec words it
(spec section 4.2), for the refinement claim C8. -/
def spec_validation_confidence (matched_items total_items : ℕ)
    (violation_count critical_count : ℕ) : ℚ :=
  if total_items = 0 then 0
  else
    max ((matched_items : ℚ) / (total_items : ℚ) -
        min (0.1 * (violation_count : ℚ)) 0.5 - 0.2 * (critical_count : ℚ)) 0

/-- Embeds `BusinessRulesEngine._validate_tax_calculations`
(`app/core/business_rules.py` lines 128-167).  The configured
`settings.max_tax_rate` is passed explicitly; the 10 percent rule is hard-coded
in the source. -/
def validate_tax_calculations (max_tax_rate : ℚ) (invoice : Invoice) :
    List BusinessRuleViolation :=
  let rate_violations :=
    if 0 < invoice.subtotal_amount then
      (let calculated_tax_rate := invoice.tax_amount / invoice.subtotal_amount
      if max_tax_rate < calculated_tax_rate then
        [{ violation_type := ViolationType.INVALID_TAX_CALCULATION, severity := "HIGH" }]
      else [])
    else []
  let expected_tax := invoice.subtotal_amount * 0.1
  let calc_violations :=
    if 0.01 < |invoice.tax_amount - expected_tax| then
      [{ violation_type := ViolationType.INVALID_TAX_CALCULATION, severity := "MEDIUM" }]
    else []
  rate_violations ++ calc_violations

/-- Leading-match test on character lists (helper for substring containment). -/
def chLead : List Char → List Char → Bool
  | _, [] => true
  | [], _ :: _ => false
  | a :: as, b :: bs => a == b && chLead as bs

/-- Contiguous containment test on character lists. -/
def chSub : List Char → List Char → Bool
  | [], pat => pat.isEmpty
  | a :: as, pat => chLead (a :: as) pat || chSub as pat

/-- Substring containment: models Python `needle in haystack` on strings and a
SQL LIKE pattern with percent wildcards on both sides. -/
def strContains (hay pat : String) : Bool :=
  chSub hay.toList pat.toList

/-- Python `str.lower()`: character-wise lowercasing.  Equivalent to
`String.toLower` but defined by a plain list map so that it reduces inside the
kernel. -/
def strLower (s : String) : String :=
  String.mk (s.data.map Char.toLower)

/-- Python truthiness of an optional string: `None` and the empty string are
falsy. -/
def pyTruthy (o : Option String) : Bool :=
  o.getD "" != ""

/-- Embeds `BusinessRulesEngine._check_approval_thresholds`
(`app/core/business_rules.py` lines 67-101). -/
def check_approval_thresholds
    (auto_approve_threshold require_manual_review_threshold : ℚ)
    (invoice : Invoice) : List BusinessRuleViolation :=
  (if auto_approve_threshold < invoice.total_amount then
    [{ violation_type := ViolationType.AMOUNT_EXCEEDS_THRESHOLD, severity := "MEDIUM" }]
  else []) ++
  (if require_manual_review_threshold < invoice.total_amount then
    [{ violation_type := ViolationType.AMOUNT_EXCEEDS_THRESHOLD, severity := "HIGH" }]
  else [])

/-- Embeds `BusinessRulesEngine._check_duplicate_in_database`
(`app/core/business_rules.py` lines 304-308): the placeholder always reports
no duplicate. -/
def check_duplicate_in_database (_invoice : Invoice) : Bool :=
  false

/-- Embeds `BusinessRulesEngine._check_duplicate_invoice`
(`app/core/business_rules.py` lines 103-126): the sole CRITICAL emitter,
guarded by the placeholder database check. -/
def check_duplicate_invoice (invoice : Invoice) : List BusinessRuleViolation :=
  if check_duplicate_in_database invoice then
    [{ violation_type := ViolationType.DUPLICATE_INVOICE, severity := "CRITICAL" }]
  else []

/-- The fixed suspicious-keyword list of `_validate_vendor_authorization`. -/
def suspicious_keywords : List String :=
  ["test", "demo", "sample", "invalid"]

/-- Embeds `BusinessRulesEngine._validate_vendor_authorization`
(`app/core/business_rules.py` lines 169-209).  The source breaks after the
first matching keyword, so at most one keyword violation is emitted. -/
def validate_vendor_authorization (invoice : Invoice) : List BusinessRuleViolation :=
  let vendor_lower := strLower invoice.vendor_name
  (if suspicious_keywords.any (fun keyword => strContains vendor_lower keyword) then
    [{ violation_type := ViolationType.VENDOR_NOT_AUTHORIZED, severity := "HIGH" }]
  else []) ++
  (if invoice.vendor_name = "" ∨ invoice.vendor_name.trim.length < 2 then
    [{ violation_type := ViolationType.VENDOR_NOT_AUTHORIZED, severity := "HIGH" }]
  else [])

/-- Embeds `BusinessRulesEngine._is_valid_contract`: placeholder, always
valid. -/
def is_valid_contract (_contract_reference : String) : Bool :=
  true

/-- Embeds `BusinessRulesEngine._is_valid_payment_terms`: placeholder, always
valid. -/
def is_valid_payment_terms (_payment_terms : String) : Bool :=
  true

/-- Embeds `BusinessRulesEngine._check_contract_terms`
(`app/core/business_rules.py` lines 211-231). -/
def check_contract_terms (invoice : Invoice) : List BusinessRuleViolation :=
  if pyTruthy invoice.contract_reference then
    (if ! is_valid_contract (invoice.contract_reference.getD "") then
      [{ violation_type := ViolationType.CONTRACT_VIOLATION, severity := "HIGH" }]
    else [])
  else []

/-- Embeds `BusinessRulesEngine._validate_payment_terms`
(`app/core/business_rules.py` lines 233-253). -/
def validate_payment_terms (invoice : Invoice) : List BusinessRuleViolation :=
  if pyTruthy invoice.payment_terms then
    (if ! is_valid_payment_terms (invoice.payment_terms.getD "") then
      [{ violation_type := ViolationType.CONTRACT_VIOLATION, severity := "MEDIUM" }]
    else [])
  else []

/-- Embeds `BusinessRulesEngine._check_suspicious_patterns`
(`app/core/business_rules.py` lines 255-302).  `datetime.now()` is the `now`
parameter; `total_amount % 100 == 0` on nonnegative decimals is the floor
remainder. -/
def check_suspicious_patterns (now : Int) (invoice : Invoice) :
    List BusinessRuleViolation :=
  (if invoice.total_amount - 100 * (⌊invoice.total_amount / 100⌋ : ℚ) = 0 ∧
      1000 < invoice.total_amount then
    [{ violation_type := ViolationType.CONTRACT_VIOLATION, severity := "LOW" }]
  else []) ++
  (if invoice.total_amount < 1 then
    [{ violation_type := ViolationType.CONTRACT_VIOLATION, severity := "MEDIUM" }]
  else []) ++
  (if now < invoice.invoice_date then
    [{ violation_type := ViolationType.DELIVERY_DATE_ISSUE, severity := "HIGH" }]
  else [])

/-- Embeds `BusinessRulesEngine.check_business_rules`
(`app/core/business_rules.py` lines 29-65): the concatenation of the seven
checks in source order. -/
def check_business_rules
    (auto_approve_threshold require_manual_review_threshold max_tax_rate : ℚ)
    (now : Int) (invoice : Invoice) : List BusinessRuleViolation :=
  check_approval_thresholds auto_approve_threshold require_manual_review_threshold invoice ++
  check_duplicate_invoice invoice ++
  validate_tax_calculations max_tax_rate invoice ++
  validate_vendor_authorization invoice ++
  check_contract_terms invoice ++
  validate_payment_terms invoice ++
  check_suspicious_patterns now invoice

/-- Embeds `RecommendationEngine._determine_risk_level`
(`app/core/recommendation_engine.py` lines 280-294). -/
def determine_risk_level (violations : List BusinessRuleViolation) : String :=
  if 0 < (violations.filter (fun v => v.severity == "CRITICAL")).length then "CRITICAL"
  else if 0 < (violations.filter (fun v => v.severity == "HIGH")).length then "HIGH"
  else if 0 < (violations.filter (fun v => v.severity == "MEDIUM")).length then "MEDIUM"
  else "LOW"

/-- Embeds `PurchaseOrder.get_line_item_by_description`
(`app/models/purchase_order.py` lines 83-88). -/
def get_line_item_by_description (po : PurchaseOrder) (description : String) :
    Option POLineItem :=
  po.line_items.find? (fun item => strLower item.description == strLower description)

/-- Embeds `PurchaseOrder.get_line_item_by_sku`
(`app/models/purchase_order.py` lines 90-95): items whose sku is missing or
empty are skipped by Python truthiness. -/
def get_line_item_by_sku (po : PurchaseOrder) (sku : String) : Option POLineItem :=
  po.line_items.find?
    (fun item => pyTruthy item.sku && (strLower (item.sku.getD "") == strLower sku))

/-- The per-item PO lookup of `validate_invoice_against_po`
(`app/core/po_matcher.py` lines 242-245): description first, then sku when the
invoice item has a truthy sku. -/
def find_po_item (po : PurchaseOrder) (invoice_item : InvoiceLineItem) :
    Option POLineItem :=
  match get_line_item_by_description po invoice_item.description with
  | some item => some item
  | none =>
    if pyTruthy invoice_item.sku then
      get_line_item_by_sku po (invoice_item.sku.getD "")
    else none

/-- The per-line-item violations and matched flag of
`validate_invoice_against_po` (`app/core/po_matcher.py` lines 242-308):
a found PO item contributes MEDIUM quantity/price mismatches, a missing one a
HIGH QUANTITY_MISMATCH-tagged violation. -/
def line_item_check (po : PurchaseOrder) (invoice_item : InvoiceLineItem) :
    List BusinessRuleViolation × Bool :=
  match find_po_item po invoice_item with
  | some po_item =>
    ((if invoice_item.quantity ≠ po_item.quantity then
        [{ violation_type := ViolationType.QUANTITY_MISMATCH, severity := "MEDIUM" }]
      else []) ++
      (if po_item.unit_price * 0.05 < |invoice_item.unit_price - po_item.unit_price| then
        [{ violation_type := ViolationType.PRICE_MISMATCH, severity := "MEDIUM" }]
      else []),
      true)
  | none =>
    ([{ violation_type := ViolationType.QUANTITY_MISMATCH, severity := "HIGH" }], false)

/-- Embeds `POMatcher.validate_invoice_against_po`
(`app/core/po_matcher.py` lines 214-375): vendor check, per-line-item checks in
order, overage check, then the assembled ValidationResult. -/
def validate_invoice_against_po (invoice : Invoice) (po : PurchaseOrder) :
    ValidationResult :=
  let vendor_violations :=
    if strLower invoice.vendor_name ≠ strLower po.vendor_name then
      [{ violation_type := ViolationType.VENDOR_NOT_AUTHORIZED, severity := "HIGH" }]
    else []
  let item_results := invoice.line_items.map (line_item_check po)
  let item_violations := (item_results.map Prod.fst).flatten
  let matched_line_items := (item_results.filter (fun r => r.2)).length
  let amount_difference := invoice.total_amount - po.total_authorized
  let overage_amount := max amount_difference 0
  let overage_violations :=
    if 0 < overage_amount then
      [{ violation_type := ViolationType.OVERAGE_EXCEEDS_LIMIT, severity := "MEDIUM" }]
    else []
  let violations := vendor_violations ++ item_violations ++ overage_violations
  { is_valid := violations.isEmpty,
    confidence_score :=
      calculate_validation_confidence matched_line_items invoice.line_items.length violations,
    po_found := true,
    po_number := some po.po_number,
    total_line_items := invoice.line_items.length,
    matched_line_items := matched_line_items,
    amount_difference := amount_difference,
    overage_amount := overage_amount,
    violations := violations,
    critical_violations := (violations.filter (fun v => v.severity == "CRITICAL")).length,
    high_violations := (violations.filter (fun v => v.severity == "HIGH")).length }

/-- The PO lookup collaborator as `POMatcher` sees it: any call may raise,
modelled by `Except Unit` (spec section 6, `POLookup` capability). -/
structure POService where
  get_po_by_number : String → Except Unit (Option PurchaseOrder)
  get_pos_by_vendor : String → Except Unit (List PurchaseOrder)
  get_all_pos : Except Unit (List PurchaseOrder)

/-- A PO repository snapshot: the stored POs in enumeration order. -/
structure PORepo where
  pos : List PurchaseOrder
  deriving DecidableEq, Repr

/-- Embeds `POService.get_po_by_number` (`app/services/po_service.py` lines
25-51): `filter_by(po_number=...).first()` over the stored POs. -/
def repo_get_po_by_number (repo : PORepo) (po_number : String) :
    Option PurchaseOrder :=
  repo.pos.find? (fun po => po.po_number == po_number)

/-- Embeds `POService.get_pos_by_vendor` (`app/services/po_service.py` lines
53-83): the SQL filter `vendor_name.ilike(percent + vendor_name + percent)`,
that is case-insensitive substring containment. -/
def repo_get_pos_by_vendor (repo : PORepo) (vendor_name : String) :
    List PurchaseOrder :=
  repo.pos.filter (fun po => strContains (strLower po.vendor_name) (strLower vendor_name))

/-- Embeds `POService.get_all_pos` (`app/services/po_service.py` lines
85-111). -/
def repo_get_all_pos (repo : PORepo) : List PurchaseOrder :=
  repo.pos

/-- The repository-backed service: the service layer catches its own database
errors, so its calls never raise into the matcher. -/
def POService.ofRepo (repo : PORepo) : POService :=
  { get_po_by_number := fun n => Except.ok (repo_get_po_by_number repo n),
    get_pos_by_vendor := fun v => Except.ok (repo_get_pos_by_vendor repo v),
    get_all_pos := Except.ok (repo_get_all_pos repo) }

/-- Python `str.split()` without arguments: whitespace-separated tokens with
empty tokens dropped. -/
def pySplit (s : String) : List String :=
  (s.split (fun c => c.isWhitespace)).filter (fun w => w != "")

/-- Jaccard similarity over word sets, the shared body of
`_calculate_text_similarity` and `_calculate_vendor_similarity`:
`|intersection| / |union|`, and 0 when either side is empty. -/
def word_set_similarity (words1 words2 : List String) : ℚ :=
  let w1 := words1.dedup
  let w2 := words2.dedup
  if w1 = [] ∨ w2 = [] then 0
  else
    ((w1.filter (fun w => w2.contains w)).length : ℚ) /
      ((w1 ++ w2.filter (fun w => !(w1.contains w))).length : ℚ)

/-- Embeds `POMatcher._calculate_text_similarity` (`app/core/po_matcher.py`
lines 200-212). -/
def calculate_text_similarity (text1 text2 : String) : ℚ :=
  word_set_similarity (pySplit text1) (pySplit text2)

/-- Embeds `POMatcher._calculate_vendor_similarity` (`app/core/po_matcher.py`
lines 186-198): lower-cases before splitting. -/
def calculate_vendor_similarity (vendor1 vendor2 : String) : ℚ :=
  word_set_similarity (pySplit (strLower vendor1)) (pySplit (strLower vendor2))

/-- Embeds `POMatcher._calculate_line_item_match_score`
(`app/core/po_matcher.py` lines 147-184). -/
def calculate_line_item_match_score (invoice : Invoice) (po : PurchaseOrder) : ℚ :=
  if invoice.line_items = [] ∨ po.line_items = [] then 0
  else
    let total_items := invoice.line_items.length
    let total_matches := (invoice.line_items.map (fun invoice_item =>
      po.line_items.foldl (fun best po_item =>
        let desc_similarity := calculate_text_similarity
          (strLower invoice_item.description) (strLower po_item.description)
        let qty_match : ℚ := if invoice_item.quantity = po_item.quantity then 1 else 0
        let price_match : ℚ :=
          if |invoice_item.unit_price - po_item.unit_price| ≤ po_item.unit_price * 0.05
          then 1 else 0
        max best (desc_similarity * 0.6 + qty_match * 0.2 + price_match * 0.2)) 0)).sum
    if 0 < total_items then total_matches / (total_items : ℚ) else 0

/-- The best-candidate loop shared by strategies 3 and 4: iterate in order and
keep a candidate only when its score strictly improves the best so far and
clears the threshold. -/
def pick_best_above (score : PurchaseOrder → ℚ) (threshold : ℚ)
    (pos : List PurchaseOrder) : Option PurchaseOrder :=
  (pos.foldl (fun acc po =>
    let s := score po
    if acc.2 < s ∧ threshold < s then (some po, s) else acc)
    ((none : Option PurchaseOrder), (0 : ℚ))).1

/-- Embeds `POMatcher._find_po_by_vendor_and_amount` (`app/core/po_matcher.py`
lines 66-88): a raising vendor lookup is caught inside the strategy, which then
reports no match; otherwise the first vendor-filtered PO within one cent of the
invoice total wins. -/
def find_po_by_vendor_and_amount (svc : POService) (invoice : Invoice) :
    Option PurchaseOrder :=
  match svc.get_pos_by_vendor invoice.vendor_name with
  | Except.error _ => none
  | Except.ok vendor_pos =>
    if vendor_pos = [] then none
    else vendor_pos.find? (fun po =>
      decide (|po.total_authorized - invoice.total_amount| ≤ 0.01))

/-- Embeds `POMatcher._find_po_by_line_items` (`app/core/po_matcher.py` lines
90-117): same per-strategy exception containment, then best line-item score
above one half. -/
def find_po_by_line_items (svc : POService) (invoice : Invoice) :
    Option PurchaseOrder :=
  match svc.get_pos_by_vendor invoice.vendor_name with
  | Except.error _ => none
  | Except.ok vendor_pos =>
    if vendor_pos = [] then none
    else pick_best_above (calculate_line_item_match_score invoice) 0.5 vendor_pos

/-- Embeds `POMatcher._find_po_by_fuzzy_vendor` (`app/core/po_matcher.py` lines
119-145): same per-strategy exception containment, then best vendor similarity
above 0.8 among all POs. -/
def find_po_by_fuzzy_vendor (svc : POService) (invoice : Invoice) :
    Option PurchaseOrder :=
  match svc.get_all_pos with
  | Except.error _ => none
  | Except.ok all_pos =>
    pick_best_above
      (fun po => calculate_vendor_similarity invoice.vendor_name po.vendor_name)
      0.8 all_pos

/-- Strategy 1 of `find_matching_po` (`app/core/po_matcher.py` lines 38-43):
the direct reference lookup, run with a truthy `po_reference`, inside the
operation-level try block, so a raised exception escapes to the operation-level
handler rather than to a per-strategy one. -/
def direct_reference_lookup (svc : POService) (invoice : Invoice) :
    Except Unit (Option PurchaseOrder) :=
  match invoice.po_reference with
  | some r => if r ≠ "" then svc.get_po_by_number r else Except.ok none
  | none => Except.ok none

/-- Embeds `POMatcher.find_matching_po` (`app/core/po_matcher.py` lines 29-64):
the four-strategy cascade inside one operation-level try/except returning none
on any escaped exception. -/
def find_matching_po (svc : POService) (invoice : Invoice) :
    Option PurchaseOrder :=
  match direct_reference_lookup svc invoice with
  | Except.error _ => none
  | Except.ok (some po) => some po
  | Except.ok none =>
    match find_po_by_vendor_and_amount svc invoice with
    | some po => some po
    | none =>
      match find_po_by_line_items svc invoice with
      | some po => some po
      | none => find_po_by_fuzzy_vendor svc invoice

/-- Concrete PO for the C3 counterexample. -/
def po_c3 : PurchaseOrder :=
  { po_number := "PO-9", vendor_name := "Gamma LLC", vendor_id := none,
    po_date := 0, total_authorized := 500, line_items := [] }

/-- A service whose number lookup raises while the vendor lookup succeeds. -/
def svc_c3 : POService :=
  { get_po_by_number := fun _ => Except.error (),
    get_pos_by_vendor := fun _ => Except.ok [po_c3],
    get_all_pos := Except.ok [po_c3] }

/-- Concrete invoice for the C3 counterexample: it carries a po_reference, and
its vendor and total also match `po_c3` exactly. -/
def invoice_c3 : Invoice :=
  { invoice_number := "INV-9", vendor_name := "Gamma LLC", vendor_id := none,
    invoice_date := 0, due_date := 0, total_amount := 500, tax_amount := 0,
    subtotal_amount := 500, line_items := [], po_reference := some "PO-9",
    contract_reference := none, payment_terms := none }

/-- Concrete PO for the C5 witness: vendor and total differ from the invoice. -/
def po_c5 : PurchaseOrder :=
  { po_number := "PO-2024-001", vendor_name := "Delta Industrial", vendor_id := none,
    po_date := 0, total_authorized := 999, line_items := [] }

/-- Concrete repository for the C5 witness. -/
def repo_c5 : PORepo :=
  { pos := [po_c5] }

/-- Concrete invoice for the C5 witness. -/
def invoice_c5 : Invoice :=
  { invoice_number := "INV-5", vendor_name := "Some Other Vendor", vendor_id := none,
    invoice_date := 0, due_date := 0, total_amount := 123, tax_amount := 0,
    subtotal_amount := 123, line_items := [], po_reference := some "PO-2024-001",
    contract_reference := none, payment_terms := none }

/-- Concrete PO for the C6 counterexample: its vendor name contains the invoice
vendor name as a substring but is not equal to it, even case-insensitively. -/
def po_c6x : PurchaseOrder :=
  { po_number := "PO-77", vendor_name := "XABC Ltd", vendor_id := none,
    po_date := 0, total_authorized := 100, line_items := [] }

/-- Concrete repository for the C6 counterexample. -/
def repo_c6x : PORepo :=
  { pos := [po_c6x] }

/-- Concrete invoice for the C6 counterexample. -/
def invoice_c6x : Invoice :=
  { invoice_number := "INV-77", vendor_name := "ABC", vendor_id := none,
    invoice_date := 0, due_date := 0, total_amount := 100, tax_amount := 0,
    subtotal_amount := 100, line_items := [], po_reference := none,
    contract_reference := none, payment_terms := none }

/-- Concrete same-vendor PO for the C6 example run. -/
def po_c6 : PurchaseOrder :=
  { po_number := "PO-2024-002", vendor_name := "ABC Supplies Inc.", vendor_id := none,
    po_date := 0, total_authorized := 2500, line_items := [] }

/-- Concrete repository for the C6 example run. -/
def repo_c6 : PORepo :=
  { pos := [po_c6] }

/-- Concrete invoice for the C6 example run: no po_reference, vendor
"ABC Supplies Inc.", amount 2500.00. -/
def invoice_c6 : Invoice :=
  { invoice_number := "INV-6", vendor_name := "ABC Supplies Inc.", vendor_id := none,
    invoice_date := 0, due_date := 0, total_amount := 2500, tax_amount := 0,
    subtotal_amount := 2500, line_items := [], po_reference := none,
    contract_reference := none, payment_terms := none }

/-- Embeds pydantic construction of `InvoiceLineItem` (`app/models/invoice.py`
lines 11-34).  Pydantic runs the `ge=0` constraints and field validators in
field declaration order, and a validator's `info.data` holds exactly the
already-validated (earlier-declared) fields.  For `total_price` the earlier
fields description, quantity and unit_price are available, so the
quantity-times-price check runs. -/
def mkInvoiceLineItem (item : InvoiceLineItem) : Except String InvoiceLineItem :=
  if item.quantity < 0 then Except.error "quantity must be nonnegative"
  else if item.unit_price < 0 then Except.error "unit_price must be nonnegative"
  else if item.total_price < 0 then Except.error "total_price must be nonnegative"
  else if ("quantity" ∈ ["description", "quantity", "unit_price"] ∧
      "unit_price" ∈ ["description", "quantity", "unit_price"]) ∧
      0.01 < |item.total_price - (item.quantity : ℚ) * item.unit_price| then
    Except.error "total_price does not match quantity times unit_price"
  else Except.ok item

/-- Construction of the `line_items` field of an Invoice: each element is
validated in order, the first failure aborting. -/
def mkInvoiceLineItems : List InvoiceLineItem → Except String (List InvoiceLineItem)
  | [] => Except.ok []
  | item :: rest =>
    match mkInvoiceLineItem item with
    | Except.error e => Except.error e
    | Except.ok it =>
      match mkInvoiceLineItems rest with
      | Except.error e => Except.error e
      | Except.ok its => Except.ok (it :: its)

/-- Embeds pydantic construction of `Invoice` (`app/models/invoice.py` lines
37-108).  Pydantic validates fields in declaration order and a validator
receives in `info.data` exactly the already-validated (earlier-declared)
fields.  `total_amount` is declared before `tax_amount` and `subtotal_amount`,
and `subtotal_amount` before `line_items`, so the key guards of
`validate_total_amount` (lines 70-80) and `validate_subtotal` (lines 82-92)
test for fields that are never in `info.data` at that point. -/
def mkInvoice (invoice : Invoice) : Except String Invoice :=
  if invoice.total_amount < 0 then Except.error "total_amount must be nonnegative"
  else if ("subtotal_amount" ∈ ["invoice_number", "vendor_name", "vendor_id",
        "invoice_date", "due_date"] ∧
      "tax_amount" ∈ ["invoice_number", "vendor_name", "vendor_id",
        "invoice_date", "due_date"]) ∧
      0.01 < |invoice.total_amount -
        (invoice.subtotal_amount + invoice.tax_amount)| then
    Except.error "total_amount does not match subtotal plus tax"
  else if invoice.tax_amount < 0 then Except.error "tax_amount must be nonnegative"
  else if invoice.subtotal_amount < 0 then
    Except.error "subtotal_amount must be nonnegative"
  else if ("line_items" ∈ ["invoice_number", "vendor_name", "vendor_id",
        "invoice_date", "due_date", "total_amount", "tax_amount"]) ∧
      0.01 < |invoice.subtotal_amount -
        (invoice.line_items.map (fun it => it.total_price)).sum| then
    Except.error "subtotal does not match sum of line items"
  else
    match mkInvoiceLineItems invoice.line_items with
    | Except.error e => Except.error e
    | Except.ok _ => Except.ok invoice

/-- Embeds pydantic construction of `POLineItem`
(`app/models/purchase_order.py` lines 11-37): same shape as the invoice line
item, with a working total-price validator since all guard keys are declared
before `total_price`. -/
def mkPOLineItem (item : POLineItem) : Except String POLineItem :=
  if item.quantity < 0 then Except.error "quantity must be nonnegative"
  else if item.unit_price < 0 then Except.error "unit_price must be nonnegative"
  else if item.total_price < 0 then Except.error "total_price must be nonnegative"
  else if ("quantity" ∈ ["description", "quantity", "unit_price"] ∧
      "unit_price" ∈ ["description", "quantity", "unit_price"]) ∧
      0.01 < |item.total_price - (item.quantity : ℚ) * item.unit_price| then
    Except.error "total_price does not match quantity times unit_price"
  else Except.ok item

/-- Construction of the `line_items` field of a PurchaseOrder. -/
def mkPOLineItems : List POLineItem → Except String (List POLineItem)
  | [] => Except.ok []
  | item :: rest =>
    match mkPOLineItem item with
    | Except.error e => Except.error e
    | Except.ok it =>
      match mkPOLineItems rest with
      | Except.error e => Except.error e
      | Except.ok its => Except.ok (it :: its)

/-- Embeds pydantic construction of `PurchaseOrder`
(`app/models/purchase_order.py` lines 40-110).  `total_authorized` is declared
before `line_items`, so the key guard of `validate_total_authorized` (lines
71-81) tests for a field that is never in `info.data` at that point. -/
def mkPurchaseOrder (po : PurchaseOrder) : Except String PurchaseOrder :=
  if po.total_authorized < 0 then
    Except.error "total_authorized must be nonnegative"
  else if ("line_items" ∈ ["po_number", "vendor_name", "vendor_id", "po_date"]) ∧
      0.01 < |po.total_authorized -
        (po.line_items.map (fun it => it.total_price)).sum| then
    Except.error "total_authorized does not match sum of line items"
  else
    match mkPOLineItems po.line_items with
    | Except.error e => Except.error e
    | Except.ok _ => Except.ok po

/-- The invalid invoice of the repository test `test_invoice_total_validation`:
total 120 against subtotal 100 plus tax 10. -/
def invoice_c2 : Invoice :=
  { invoice_number := "INV-001", vendor_name := "Test Vendor", vendor_id := none,
    invoice_date := 0, due_date := 0, total_amount := 120, tax_amount := 10,
    subtotal_amount := 100,
    line_items := [{ description := "Item 1", quantity := 1, unit_price := 100,
                     total_price := 100, sku := none }],
    po_reference := none, contract_reference := none, payment_terms := none }

/-- An invoice whose subtotal disagrees with the sum of its line items while
total equals subtotal plus tax. -/
def invoice_c2b : Invoice :=
  { invoice_number := "INV-002", vendor_name := "Test Vendor", vendor_id := none,
    invoice_date := 0, due_date := 0, total_amount := 110, tax_amount := 10,
    subtotal_amount := 100,
    line_items := [{ description := "Item 1", quantity := 1, unit_price := 60,
                     total_price := 60, sku := none }],
    po_reference := none, contract_reference := none, payment_terms := none }

/-- The invalid purchase order of the repository test
`test_po_total_validation`: total_authorized 120 against line items summing to
100. -/
def po_c10 : PurchaseOrder :=
  { po_number := "PO-001", vendor_name := "Test Vendor", vendor_id := none,
    po_date := 0, total_authorized := 120,
    line_items := [{ description := "Item 1", quantity := 1, unit_price := 100,
                     total_price := 100, sku := none }] }

/-- A Python truthiness test on a list (`if some_list:`) is emptiness of the
corresponding filter; this bridges the source's filter-then-test idiom to the
spec's existential wording. -/
theorem filter_ne_nil_iff {α : Type} {p : α → Bool} {l : List α} :
    l.filter p ≠ [] ↔ ∃ a ∈ l, p a = true := by
  constructor
  · intro h
    by_contra hex
    push_neg at hex
    exact h (List.filter_eq_nil_iff.mpr (fun a ha => by simp [hex a ha]))
  · rintro ⟨a, ha, hpa⟩ hnil
    have : a ∈ l.filter p := List.mem_filter.mpr ⟨ha, hpa⟩
    rw [hnil] at this
    exact List.not_mem_nil a this

/-- C1: `generate_recommendation` determines the action by the spec's ordered
decision table over the concatenation of the ValidationResult's violations and
the business-rule violations: CRITICAL forces REJECT, else HIGH forces
MANUAL_REVIEW, else a found PO with valid validation yields APPROVE iff the
total is within the auto-approve threshold (else MANUAL_REVIEW), else a missing
PO yields HOLD, else MEDIUM (and the default) yield MANUAL_REVIEW. -/
theorem generate_recommendation_action_matches_spec_table
    (auto_approve_threshold : ℚ) (invoice : Invoice)
    (validation_result : ValidationResult)
    (business_rule_violations : List BusinessRuleViolation) :
    generate_recommendation_action auto_approve_threshold invoice
        validation_result business_rule_violations =
      spec_decision_table auto_approve_threshold invoice validation_result
        (validation_result.violations ++ business_rule_violations) := by
  unfold generate_recommendation_action determine_base_action spec_decision_table
  simp only [filter_ne_nil_iff, beq_iff_eq, Bool.and_eq_true, Bool.not_eq_true']

/-- Closed instance of C1 at a concrete input: one CRITICAL business-rule
violation forces REJECT through both the source decision and the spec table. -/
theorem generate_recommendation_action_matches_spec_table_witness :
    generate_recommendation_action 1000
        { invoice_number := "INV-1", vendor_name := "V", vendor_id := none,
          invoice_date := 0, due_date := 0, total_amount := 10, tax_amount := 0,
          subtotal_amount := 10, line_items := [], po_reference := none,
          contract_reference := none, payment_terms := none }
        { is_valid := true, confidence_score := 1, po_found := true,
          po_number := none, total_line_items := 0, matched_line_items := 0,
          amount_difference := 0, overage_amount := 0, violations := [],
          critical_violations := 0, high_violations := 0 }
        [{ violation_type := ViolationType.DUPLICATE_INVOICE, severity := "CRITICAL" }] =
      ActionType.REJECT := by
  have h := generate_recommendation_action_matches_spec_table 1000
      { invoice_number := "INV-1", vendor_name := "V", vendor_id := none,
        invoice_date := 0, due_date := 0, total_amount := 10, tax_amount := 0,
        subtotal_amount := 10, line_items := [], po_reference := none,
        contract_reference := none, payment_terms := none }
      { is_valid := true, confidence_score := 1, po_found := true,
        po_number := none, total_line_items := 0, matched_line_items := 0,
        amount_difference := 0, overage_amount := 0, violations := [],
        critical_violations := 0, high_violations := 0 }
      [{ violation_type := ViolationType.DUPLICATE_INVOICE, severity := "CRITICAL" }]
  rw [h]
  decide

/-- C7: the recommendation confidence equals the validation confidence minus
`min(0.1 * violation_count, 0.4)` minus the severity-weighted penalty
`0.2 * critical + 0.15 * high + 0.1 * medium`, floored at 0.1; and whenever the
validation confidence lies in `[0, 1]` the result lies in `[0.1, 1]`. -/
theorem calculate_confidence_score_spec_and_bounds
    (validation_result : ValidationResult)
    (violations : List BusinessRuleViolation) :
    calculate_confidence_score validation_result violations =
      spec_recommendation_confidence validation_result.confidence_score
        violations.length
        (violations.filter (fun v => v.severity == "CRITICAL")).length
        (violations.filter (fun v => v.severity == "HIGH")).length
        (violations.filter (fun v => v.severity == "MEDIUM")).length ∧
    (0 ≤ validation_result.confidence_score →
      validation_result.confidence_score ≤ 1 →
      0.1 ≤ calculate_confidence_score validation_result violations ∧
        calculate_confidence_score validation_result violations ≤ 1) := by
  constructor
  · unfold calculate_confidence_score spec_recommendation_confidence
    ring_nf
  · intro h0 h1
    unfold calculate_confidence_score
    refine ⟨le_max_right _ _, max_le ?_ (by norm_num)⟩
    have hvp : (0 : ℚ) ≤ min ((violations.length : ℚ) * 0.1) 0.4 :=
      le_min (by positivity) (by norm_num)
    have hcp : (0 : ℚ) ≤
        ((violations.filter (fun v => v.severity == "CRITICAL")).length : ℚ) * 0.2 := by
      positivity
    have hhp : (0 : ℚ) ≤
        ((violations.filter (fun v => v.severity == "HIGH")).length : ℚ) * 0.15 := by
      positivity
    have hmp : (0 : ℚ) ≤
        ((violations.filter (fun v => v.severity == "MEDIUM")).length : ℚ) * 0.1 := by
      positivity
    linarith

/-- Closed instance of C7: a validation confidence of 0.8 with one MEDIUM
violation stays within `[0.1, 1]`. -/
theorem calculate_confidence_score_spec_and_bounds_witness :
    0.1 ≤ calculate_confidence_score
        { is_valid := false, confidence_score := 0.8, po_found := true,
          po_number := none, total_line_items := 2, matched_line_items := 2,
          amount_difference := 0, overage_amount := 0, violations := [],
          critical_violations := 0, high_violations := 0 }
        [{ violation_type := ViolationType.AMOUNT_EXCEEDS_THRESHOLD, severity := "MEDIUM" }] ∧
      calculate_confidence_score
        { is_valid := false, confidence_score := 0.8, po_found := true,
          po_number := none, total_line_items := 2, matched_line_items := 2,
          amount_difference := 0, overage_amount := 0, violations := [],
          critical_violations := 0, high_violations := 0 }
        [{ violation_type := ViolationType.AMOUNT_EXCEEDS_THRESHOLD, severity := "MEDIUM" }] ≤ 1 :=
  (calculate_confidence_score_spec_and_bounds
      { is_valid := false, confidence_score := 0.8, po_found := true,
        po_number := none, total_line_items := 2, matched_line_items := 2,
        amount_difference := 0, overage_amount := 0, violations := [],
        critical_violations := 0, high_violations := 0 }
      [{ violation_type := ViolationType.AMOUNT_EXCEEDS_THRESHOLD, severity := "MEDIUM" }]).2
    (by norm_num) (by norm_num)

/-- C9: the tax check emits a HIGH INVALID_TAX_CALCULATION violation exactly
when the subtotal is positive and `tax / subtotal` exceeds the configured
maximum rate, and a MEDIUM INVALID_TAX_CALCULATION violation exactly when the
tax differs from the hard-coded ten percent of the subtotal by more than 0.01,
independently of the configured rate. -/
theorem validate_tax_calculations_characterization (max_tax_rate : ℚ)
    (invoice : Invoice) :
    (({ violation_type := ViolationType.INVALID_TAX_CALCULATION,
          severity := "HIGH" } : BusinessRuleViolation) ∈
        validate_tax_calculations max_tax_rate invoice ↔
      0 < invoice.subtotal_amount ∧
        max_tax_rate < invoice.tax_amount / invoice.subtotal_amount) ∧
    (({ violation_type := ViolationType.INVALID_TAX_CALCULATION,
          severity := "MEDIUM" } : BusinessRuleViolation) ∈
        validate_tax_calculations max_tax_rate invoice ↔
      0.01 < |invoice.tax_amount - invoice.subtotal_amount * 0.1|) := by
  unfold validate_tax_calculations
  split_ifs <;> simp_all [BusinessRuleViolation.mk.injEq]

/-- Closed instance of C9: with a configured cap of 8 percent, a subtotal of
100 and a tax of 15 trigger both the HIGH rate violation and the MEDIUM
ten-percent violation. -/
theorem validate_tax_calculations_characterization_witness :
    ({ violation_type := ViolationType.INVALID_TAX_CALCULATION,
        severity := "HIGH" } : BusinessRuleViolation) ∈
      validate_tax_calculations 0.08
        { invoice_number := "INV-2", vendor_name := "V", vendor_id := none,
          invoice_date := 0, due_date := 0, total_amount := 115, tax_amount := 15,
          subtotal_amount := 100, line_items := [], po_reference := none,
          contract_reference := none, payment_terms := none } :=
  (validate_tax_calculations_characterization 0.08
      { invoice_number := "INV-2", vendor_name := "V", vendor_id := none,
        invoice_date := 0, due_date := 0, total_amount := 115, tax_amount := 15,
        subtotal_amount := 100, line_items := [], po_reference := none,
        contract_reference := none, payment_terms := none }).1.mpr
    ⟨by norm_num, by norm_num⟩

theorem check_approval_thresholds_not_critical (a r : ℚ) (invoice : Invoice) :
    (check_approval_thresholds a r invoice).all
      (fun v => v.severity != "CRITICAL") = true := by
  unfold check_approval_thresholds
  split_ifs <;> simp

theorem check_duplicate_invoice_not_critical (invoice : Invoice) :
    (check_duplicate_invoice invoice).all
      (fun v => v.severity != "CRITICAL") = true := by
  unfold check_duplicate_invoice check_duplicate_in_database
  simp

theorem validate_tax_calculations_not_critical (m : ℚ) (invoice : Invoice) :
    (validate_tax_calculations m invoice).all
      (fun v => v.severity != "CRITICAL") = true := by
  unfold validate_tax_calculations
  split_ifs <;> simp

theorem validate_vendor_authorization_not_critical (invoice : Invoice) :
    (validate_vendor_authorization invoice).all
      (fun v => v.severity != "CRITICAL") = true := by
  unfold validate_vendor_authorization
  rw [List.all_eq_true]
  intro v hv
  simp only [List.mem_append] at hv
  rcases hv with hv | hv <;> split_ifs at hv <;>
    simp only [List.mem_singleton, List.not_mem_nil] at hv <;>
    first
      | exact hv.elim
      | (subst hv; decide)

theorem check_contract_terms_not_critical (invoice : Invoice) :
    (check_contract_terms invoice).all
      (fun v => v.severity != "CRITICAL") = true := by
  unfold check_contract_terms is_valid_contract
  split_ifs <;> simp

theorem validate_payment_terms_not_critical (invoice : Invoice) :
    (validate_payment_terms invoice).all
      (fun v => v.severity != "CRITICAL") = true := by
  unfold validate_payment_terms is_valid_payment_terms
  split_ifs <;> simp

theorem check_suspicious_patterns_not_critical (now : Int) (invoice : Invoice) :
    (check_suspicious_patterns now invoice).all
      (fun v => v.severity != "CRITICAL") = true := by
  unfold check_suspicious_patterns
  split_ifs <;> simp

theorem check_business_rules_not_critical (a r m : ℚ) (now : Int)
    (invoice : Invoice) :
    (check_business_rules a r m now invoice).all
      (fun v => v.severity != "CRITICAL") = true := by
  unfold check_business_rules
  simp only [List.all_append, Bool.and_eq_true]
  exact ⟨⟨⟨⟨⟨⟨check_approval_thresholds_not_critical a r invoice,
    check_duplicate_invoice_not_critical invoice⟩,
    validate_tax_calculations_not_critical m invoice⟩,
    validate_vendor_authorization_not_critical invoice⟩,
    check_contract_terms_not_critical invoice⟩,
    validate_payment_terms_not_critical invoice⟩,
    check_suspicious_patterns_not_critical now invoice⟩

theorem determine_base_action_ne_reject (thr : ℚ) (invoice : Invoice)
    (validation_result : ValidationResult) (vs : List BusinessRuleViolation)
    (h : vs.all (fun v => v.severity != "CRITICAL") = true) :
    determine_base_action thr invoice validation_result vs ≠ ActionType.REJECT := by
  unfold determine_base_action
  have hfilter : vs.filter (fun v => v.severity == "CRITICAL") = [] := by
    rw [List.filter_eq_nil_iff]
    intro v hv
    have := (List.all_eq_true.mp h) v hv
    simpa using this
  rw [if_neg (by simp [hfilter])]
  split_ifs <;> simp

theorem determine_risk_level_ne_critical (vs : List BusinessRuleViolation)
    (h : vs.all (fun v => v.severity != "CRITICAL") = true) :
    determine_risk_level vs ≠ "CRITICAL" := by
  unfold determine_risk_level
  have hfilter : vs.filter (fun v => v.severity == "CRITICAL") = [] := by
    rw [List.filter_eq_nil_iff]
    intro v hv
    have := (List.all_eq_true.mp h) v hv
    simpa using this
  rw [if_neg (by simp [hfilter])]
  split_ifs <;> decide

theorem calculate_validation_confidence_eq_spec (m t : ℕ)
    (vs : List BusinessRuleViolation) :
    calculate_validation_confidence m t vs =
      spec_validation_confidence m t vs.length
        (vs.filter (fun v => v.severity == "CRITICAL")).length := by
  unfold calculate_validation_confidence spec_validation_confidence
  split_ifs <;> ring_nf

theorem calculate_validation_confidence_bounds (m t : ℕ)
    (vs : List BusinessRuleViolation) (h : m ≤ t) :
    0 ≤ calculate_validation_confidence m t vs ∧
      calculate_validation_confidence m t vs ≤ 1 := by
  unfold calculate_validation_confidence
  split_ifs with ht
  · norm_num
  · have htpos : (0 : ℚ) < (t : ℚ) := by
      exact_mod_cast Nat.pos_of_ne_zero ht
    refine ⟨le_max_right _ _, max_le ?_ (by norm_num)⟩
    have h1 : (m : ℚ) / (t : ℚ) ≤ 1 := by
      rw [div_le_one htpos]
      exact_mod_cast h
    have h2 : (0 : ℚ) ≤ min ((vs.length : ℚ) * 0.1) 0.5 :=
      le_min (by positivity) (by norm_num)
    have h3 : (0 : ℚ) ≤
        ((vs.filter (fun v => v.severity == "CRITICAL")).length : ℚ) * 0.2 := by
      positivity
    linarith

theorem validate_matched_le_total (invoice : Invoice) (po : PurchaseOrder) :
    (validate_invoice_against_po invoice po).matched_line_items ≤
      (validate_invoice_against_po invoice po).total_line_items := by
  show ((invoice.line_items.map (line_item_check po)).filter (fun r => r.2)).length ≤
    invoice.line_items.length
  exact le_trans (List.length_filter_le _ _) (le_of_eq (by simp))

theorem validate_confidence_def (invoice : Invoice) (po : PurchaseOrder) :
    (validate_invoice_against_po invoice po).confidence_score =
      calculate_validation_confidence
        (validate_invoice_against_po invoice po).matched_line_items
        (validate_invoice_against_po invoice po).total_line_items
        (validate_invoice_against_po invoice po).violations :=
  rfl

/-- C8: the validation confidence computed by `validate_invoice_against_po`
equals `matched / total` minus `min(0.1 * violation_count, 0.5)` minus
`0.2 * critical_count` floored at 0, equals 0 when the invoice has no line
items, and always lies in `[0, 1]`. -/
theorem validate_invoice_against_po_confidence (invoice : Invoice)
    (po : PurchaseOrder) :
    ((validate_invoice_against_po invoice po).confidence_score =
      spec_validation_confidence
        (validate_invoice_against_po invoice po).matched_line_items
        (validate_invoice_against_po invoice po).total_line_items
        (validate_invoice_against_po invoice po).violations.length
        ((validate_invoice_against_po invoice po).violations.filter
          (fun v => v.severity == "CRITICAL")).length) ∧
    (invoice.line_items = [] →
      (validate_invoice_against_po invoice po).confidence_score = 0) ∧
    0 ≤ (validate_invoice_against_po invoice po).confidence_score ∧
    (validate_invoice_against_po invoice po).confidence_score ≤ 1 := by
  have hm := validate_matched_le_total invoice po
  refine ⟨?_, ?_, ?_, ?_⟩
  · rw [validate_confidence_def, calculate_validation_confidence_eq_spec]
  · intro h
    rw [validate_confidence_def]
    have ht : (validate_invoice_against_po invoice po).total_line_items = 0 := by
      show invoice.line_items.length = 0
      simp [h]
    rw [ht]
    unfold calculate_validation_confidence
    simp
  · rw [validate_confidence_def]
    exact (calculate_validation_confidence_bounds _ _ _ hm).1
  · rw [validate_confidence_def]
    exact (calculate_validation_confidence_bounds _ _ _ hm).2

/-- Closed instance of C8: an invoice with no line items gets validation
confidence 0 against any PO. -/
theorem validate_invoice_against_po_confidence_witness :
    (validate_invoice_against_po
        { invoice_number := "INV-3", vendor_name := "V", vendor_id := none,
          invoice_date := 0, due_date := 0, total_amount := 0, tax_amount := 0,
          subtotal_amount := 0, line_items := [], po_reference := none,
          contract_reference := none, payment_terms := none }
        { po_number := "PO-3", vendor_name := "V", vendor_id := none,
          po_date := 0, total_authorized := 0, line_items := [] }).confidence_score = 0 :=
  (validate_invoice_against_po_confidence
      { invoice_number := "INV-3", vendor_name := "V", vendor_id := none,
        invoice_date := 0, due_date := 0, total_amount := 0, tax_amount := 0,
        subtotal_amount := 0, line_items := [], po_reference := none,
        contract_reference := none, payment_terms := none }
      { po_number := "PO-3", vendor_name := "V", vendor_id := none,
        po_date := 0, total_authorized := 0, line_items := [] }).2.1 rfl

theorem line_item_check_not_critical (po : PurchaseOrder)
    (invoice_item : InvoiceLineItem) :
    (line_item_check po invoice_item).1.all
      (fun v => v.severity != "CRITICAL") = true := by
  unfold line_item_check
  rcases hfind : find_po_item po invoice_item with _ | po_item <;>
    simp only [hfind] <;> first
      | (split_ifs <;> simp)
      | simp

theorem validate_invoice_against_po_not_critical (invoice : Invoice)
    (po : PurchaseOrder) :
    (validate_invoice_against_po invoice po).violations.all
      (fun v => v.severity != "CRITICAL") = true := by
  simp only [validate_invoice_against_po, List.all_append, Bool.and_eq_true]
  refine ⟨⟨?_, ?_⟩, ?_⟩
  · split_ifs <;> simp
  · rw [List.all_eq_true]
    intro v hv
    rw [List.mem_flatten] at hv
    obtain ⟨l, hl, hvl⟩ := hv
    rw [List.mem_map] at hl
    obtain ⟨pr, hpr, rfl⟩ := hl
    rw [List.mem_map] at hpr
    obtain ⟨invoice_item, _, rfl⟩ := hpr
    have hall := line_item_check_not_critical po invoice_item
    rw [List.all_eq_true] at hall
    exact hall v hvl
  · split_ifs <;> simp

/-- C4: no violation produced by `check_business_rules` or placed into the
ValidationResult by `validate_invoice_against_po` is CRITICAL (the sole
CRITICAL emitter, the duplicate check, is guarded by a placeholder that always
reports no duplicate); consequently the recommendation action computed from
these two sources is never REJECT and the risk level is never CRITICAL. -/
theorem pipeline_violations_never_critical
    (auto_approve_threshold require_manual_review_threshold max_tax_rate : ℚ)
    (now : Int) (invoice : Invoice) (po : PurchaseOrder) :
    ((check_business_rules auto_approve_threshold require_manual_review_threshold
        max_tax_rate now invoice).all (fun v => v.severity != "CRITICAL") = true) ∧
    ((validate_invoice_against_po invoice po).violations.all
        (fun v => v.severity != "CRITICAL") = true) ∧
    (generate_recommendation_action auto_approve_threshold invoice
        (validate_invoice_against_po invoice po)
        (check_business_rules auto_approve_threshold require_manual_review_threshold
          max_tax_rate now invoice) ≠ ActionType.REJECT) ∧
    (determine_risk_level ((validate_invoice_against_po invoice po).violations ++
        check_business_rules auto_approve_threshold require_manual_review_threshold
          max_tax_rate now invoice) ≠ "CRITICAL") := by
  have hb := check_business_rules_not_critical auto_approve_threshold
    require_manual_review_threshold max_tax_rate now invoice
  have hv := validate_invoice_against_po_not_critical invoice po
  have hall : ((validate_invoice_against_po invoice po).violations ++
      check_business_rules auto_approve_threshold require_manual_review_threshold
        max_tax_rate now invoice).all (fun v => v.severity != "CRITICAL") = true := by
    rw [List.all_append, Bool.and_eq_true]
    exact ⟨hv, hb⟩
  exact ⟨hb, hv,
    determine_base_action_ne_reject auto_approve_threshold invoice
      (validate_invoice_against_po invoice po) _ hall,
    determine_risk_level_ne_critical _ hall⟩

/-- Closed instance of C4: the full pipeline on a concrete invoice and PO does
not recommend REJECT. -/
theorem pipeline_violations_never_critical_witness :
    generate_recommendation_action 1000
        { invoice_number := "INV-4", vendor_name := "Acme Corp", vendor_id := none,
          invoice_date := 10, due_date := 20, total_amount := 110, tax_amount := 10,
          subtotal_amount := 100, line_items := [], po_reference := none,
          contract_reference := none, payment_terms := none }
        (validate_invoice_against_po
          { invoice_number := "INV-4", vendor_name := "Acme Corp", vendor_id := none,
            invoice_date := 10, due_date := 20, total_amount := 110, tax_amount := 10,
            subtotal_amount := 100, line_items := [], po_reference := none,
            contract_reference := none, payment_terms := none }
          { po_number := "PO-4", vendor_name := "Acme Corp", vendor_id := none,
            po_date := 0, total_authorized := 110, line_items := [] })
        (check_business_rules 1000 5000 0.1 100
          { invoice_number := "INV-4", vendor_name := "Acme Corp", vendor_id := none,
            invoice_date := 10, due_date := 20, total_amount := 110, tax_amount := 10,
            subtotal_amount := 100, line_items := [], po_reference := none,
            contract_reference := none, payment_terms := none }) ≠ ActionType.REJECT :=
  (pipeline_violations_never_critical 1000 5000 0.1 100
      { invoice_number := "INV-4", vendor_name := "Acme Corp", vendor_id := none,
        invoice_date := 10, due_date := 20, total_amount := 110, tax_amount := 10,
        subtotal_amount := 100, line_items := [], po_reference := none,
        contract_reference := none, payment_terms := none }
      { po_number := "PO-4", vendor_name := "Acme Corp", vendor_id := none,
        po_date := 0, total_authorized := 110, line_items := [] }).2.2.1

/-- C3 counterexample: an exception raised by the strategy-1 lookup is caught
by the whole-operation handler, not per strategy, so `find_matching_po`
returns none even though strategy 2 neither fails nor raises and would have
matched; the cascade does not proceed to the next strategy. -/
theorem find_matching_po_strategy1_exception_aborts_cascade :
    find_matching_po svc_c3 invoice_c3 = none ∧
      find_po_by_vendor_and_amount svc_c3 invoice_c3 = some po_c3 := by
  constructor
  · rfl
  · show (if [po_c3] = ([] : List PurchaseOrder) then none
      else [po_c3].find? (fun po =>
        decide (|po.total_authorized - invoice_c3.total_amount| ≤ 0.01))) = some po_c3
    rw [if_neg (by simp)]
    norm_num [po_c3, invoice_c3]

/-- C3 amended: `find_matching_po` never propagates a failure.  An error
escaping strategy 1 yields none immediately, without consulting strategies 2-4;
an error from the vendor lookup is contained inside each of strategies 2 and 3,
which then report no match; and the operation returns none exactly when
strategy 1 raised, or strategy 1 found nothing and strategies 2-4 each found
nothing. -/
theorem find_matching_po_error_containment (svc : POService) (invoice : Invoice) :
    (∀ e, direct_reference_lookup svc invoice = Except.error e →
      find_matching_po svc invoice = none) ∧
    (∀ e, svc.get_pos_by_vendor invoice.vendor_name = Except.error e →
      find_po_by_vendor_and_amount svc invoice = none ∧
        find_po_by_line_items svc invoice = none) ∧
    (find_matching_po svc invoice = none ↔
      direct_reference_lookup svc invoice = Except.error () ∨
        (direct_reference_lookup svc invoice = Except.ok none ∧
          find_po_by_vendor_and_amount svc invoice = none ∧
          find_po_by_line_items svc invoice = none ∧
          find_po_by_fuzzy_vendor svc invoice = none)) := by
  refine ⟨?_, ?_, ?_⟩
  · intro e he
    unfold find_matching_po
    rw [he]
  · intro e he
    constructor
    · unfold find_po_by_vendor_and_amount
      rw [he]
    · unfold find_po_by_line_items
      rw [he]
  · unfold find_matching_po
    rcases hd : direct_reference_lookup svc invoice with e | o
    · cases e
      simp [hd]
    · rcases o with _ | po
      · rcases h2 : find_po_by_vendor_and_amount svc invoice with _ | po2
        · rcases h3 : find_po_by_line_items svc invoice with _ | po3
          · simp
          · simp
        · simp
      · simp

/-- Closed instance of the C3 amended theorem: against a service whose vendor
lookup raises, strategies 2 and 3 report no match rather than propagating. -/
theorem find_matching_po_error_containment_witness :
    find_po_by_vendor_and_amount
        { get_po_by_number := fun _ => Except.ok none,
          get_pos_by_vendor := fun _ => Except.error (),
          get_all_pos := Except.ok [] } invoice_c3 = none ∧
      find_po_by_line_items
        { get_po_by_number := fun _ => Except.ok none,
          get_pos_by_vendor := fun _ => Except.error (),
          get_all_pos := Except.ok [] } invoice_c3 = none :=
  (find_matching_po_error_containment
      { get_po_by_number := fun _ => Except.ok none,
        get_pos_by_vendor := fun _ => Except.error (),
        get_all_pos := Except.ok [] } invoice_c3).2.1 () rfl

/-- C5: with a truthy `po_reference` and a repository whose unique PO carrying
that number is `po`, `find_matching_po` returns `po` by the direct-reference
strategy, regardless of vendor names and totals. -/
theorem find_matching_po_direct_reference_wins (repo : PORepo) (invoice : Invoice)
    (n : String) (po : PurchaseOrder)
    (href : invoice.po_reference = some n) (hne : n ≠ "")
    (hmem : po ∈ repo.pos) (hnum : po.po_number = n)
    (huniq : ∀ q ∈ repo.pos, q.po_number = n → q = po) :
    find_matching_po (POService.ofRepo repo) invoice = some po := by
  have hfind : repo_get_po_by_number repo n = some po := by
    unfold repo_get_po_by_number
    have hps : (repo.pos.find? (fun q => q.po_number == n)).isSome := by
      rw [List.find?_isSome]
      exact ⟨po, hmem, by simp [hnum]⟩
    obtain ⟨q, hq⟩ := Option.isSome_iff_exists.mp hps
    have hqmem := List.mem_of_find?_eq_some hq
    have hqpred : q.po_number = n := by
      have := List.find?_some hq
      simpa using this
    rw [huniq q hqmem hqpred] at hq
    exact hq
  have hdirect : direct_reference_lookup (POService.ofRepo repo) invoice =
      Except.ok (some po) := by
    unfold direct_reference_lookup
    rw [href]
    show (if n ≠ "" then (POService.ofRepo repo).get_po_by_number n
      else Except.ok none) = Except.ok (some po)
    rw [if_pos hne]
    show Except.ok (repo_get_po_by_number repo n) = Except.ok (some po)
    rw [hfind]
  unfold find_matching_po
  rw [hdirect]

/-- Closed instance of C5: the referenced PO wins although its vendor name and
total differ from the invoice's. -/
theorem find_matching_po_direct_reference_wins_witness :
    find_matching_po (POService.ofRepo repo_c5) invoice_c5 = some po_c5 :=
  find_matching_po_direct_reference_wins repo_c5 invoice_c5 "PO-2024-001" po_c5
    rfl (by decide) (List.mem_singleton.mpr rfl) rfl
    (fun q hq _ => by simpa [repo_c5] using hq)

/-- C6 counterexample: strategy 2 selects a PO whose vendor name does not
exactly match the invoice vendor case-insensitively, because the service's
vendor filter is case-insensitive substring containment (SQL ILIKE with
wildcards on both sides), not exact equality. -/
theorem find_po_by_vendor_and_amount_not_exact_match :
    find_po_by_vendor_and_amount (POService.ofRepo repo_c6x) invoice_c6x =
        some po_c6x ∧
      strLower po_c6x.vendor_name ≠ strLower invoice_c6x.vendor_name := by
  constructor
  · show (if repo_get_pos_by_vendor repo_c6x invoice_c6x.vendor_name = [] then none
      else (repo_get_pos_by_vendor repo_c6x invoice_c6x.vendor_name).find? (fun po =>
        decide (|po.total_authorized - invoice_c6x.total_amount| ≤ 0.01))) = some po_c6x
    have hv : repo_get_pos_by_vendor repo_c6x invoice_c6x.vendor_name = [po_c6x] := by
      decide
    rw [hv, if_neg (by simp)]
    norm_num [po_c6x, invoice_c6x]
  · decide

/-- C6 amended: strategy 2 considers exactly the repository POs whose vendor
name contains the invoice vendor name case-insensitively (the service's ILIKE
filter), returning the first enumerated one within 0.01 of the invoice total;
and the concrete ABC Supplies example (no po_reference, same vendor, equal
totals) matches via the cascade. -/
theorem find_po_by_vendor_and_amount_characterization :
    (∀ (repo : PORepo) (invoice : Invoice),
      find_po_by_vendor_and_amount (POService.ofRepo repo) invoice =
        (repo.pos.filter (fun po =>
          strContains (strLower po.vendor_name) (strLower invoice.vendor_name))).find?
          (fun po => decide (|po.total_authorized - invoice.total_amount| ≤ 0.01))) ∧
    find_matching_po (POService.ofRepo repo_c6) invoice_c6 = some po_c6 := by
  constructor
  · intro repo invoice
    show (if repo_get_pos_by_vendor repo invoice.vendor_name = [] then none
      else (repo_get_pos_by_vendor repo invoice.vendor_name).find? (fun po =>
        decide (|po.total_authorized - invoice.total_amount| ≤ 0.01))) = _
    unfold repo_get_pos_by_vendor
    split_ifs with h
    · rw [h]
      rfl
    · rfl
  · show (match direct_reference_lookup (POService.ofRepo repo_c6) invoice_c6 with
      | Except.error _ => none
      | Except.ok (some po) => some po
      | Except.ok none =>
        match find_po_by_vendor_and_amount (POService.ofRepo repo_c6) invoice_c6 with
        | some po => some po
        | none =>
          match find_po_by_line_items (POService.ofRepo repo_c6) invoice_c6 with
          | some po => some po
          | none => find_po_by_fuzzy_vendor (POService.ofRepo repo_c6) invoice_c6) =
        some po_c6
    have hd : direct_reference_lookup (POService.ofRepo repo_c6) invoice_c6 =
        Except.ok none := rfl
    have h2 : find_po_by_vendor_and_amount (POService.ofRepo repo_c6) invoice_c6 =
        some po_c6 := by
      show (if repo_get_pos_by_vendor repo_c6 invoice_c6.vendor_name = [] then none
        else (repo_get_pos_by_vendor repo_c6 invoice_c6.vendor_name).find? (fun po =>
          decide (|po.total_authorized - invoice_c6.total_amount| ≤ 0.01))) = some po_c6
      have hv : repo_get_pos_by_vendor repo_c6 invoice_c6.vendor_name = [po_c6] := by
        decide
      rw [hv, if_neg (by simp)]
      norm_num [po_c6, invoice_c6]
    rw [hd, h2]

/-- C2 fails on the code: pydantic validates fields in declaration order, so
the guards of `validate_total_amount` and `validate_subtotal` look for
later-declared fields that are never present in `info.data`, and both amount
invariants are silently skipped.  Construction succeeds on an invoice violating
the total invariant (the invalid input of the repository test
`test_invoice_total_validation`, which expects a ValueError) and on one
violating the subtotal invariant. -/
theorem mkInvoice_accepts_invariant_violations :
    (0.01 < |invoice_c2.total_amount -
        (invoice_c2.subtotal_amount + invoice_c2.tax_amount)| ∧
      mkInvoice invoice_c2 = Except.ok invoice_c2) ∧
    (0.01 < |invoice_c2b.subtotal_amount -
        (invoice_c2b.line_items.map (fun it => it.total_price)).sum| ∧
      mkInvoice invoice_c2b = Except.ok invoice_c2b) := by
  refine ⟨⟨by norm_num [invoice_c2], ?_⟩, by norm_num [invoice_c2b], ?_⟩ <;>
    [skip; skip] <;>
    (norm_num [mkInvoice, mkInvoiceLineItems, mkInvoiceLineItem,
      invoice_c2, invoice_c2b]) <;>
    (intro h; exact absurd h (by decide))

/-- Sanity check that the embedding is not a stub: the line-item validator,
whose guard keys are all declared before `total_price`, does fire, matching the
passing repository test `test_invoice_line_item_validation`. -/
theorem mkInvoiceLineItem_rejects_mismatch :
    mkInvoiceLineItem
        { description := "Test Item", quantity := 5, unit_price := 10,
          total_price := 60, sku := none } =
      Except.error "total_price does not match quantity times unit_price" := by
  norm_num [mkInvoiceLineItem]

/-- C10 fails on the code: `total_authorized` is validated before `line_items`
exists in `info.data`, so the sum invariant is silently skipped and the invalid
PO of the repository test `test_po_total_validation` (which expects a
ValueError) constructs successfully.  The always-passing behaviour is also what
`POService` relies on when it rebuilds stored POs with empty line-item lists
and a nonzero total. -/
theorem mkPurchaseOrder_accepts_invariant_violation :
    0.01 < |po_c10.total_authorized -
        (po_c10.line_items.map (fun it => it.total_price)).sum| ∧
      mkPurchaseOrder po_c10 = Except.ok po_c10 :=
  ⟨by norm_num [po_c10], by
    norm_num [mkPurchaseOrder, mkPOLineItems, mkPOLineItem, po_c10]
    intro h
    exact absurd h (by decide)⟩

end PRAT
